import Mathlib

/-!
Verification of the buildbot excerpt: the Database Connector Service
(spec sections 3-8; its implementation `buildbot/db/connector.py` is not in
the excerpt, only its unit tests, so the connector is modelled from the
spec) and the web feed module `buildbot/status/web/feeds.py`, embedded
directly from the source.
-/

namespace DBConn

/-- Modelled from the spec: the fixed set of accessor families of the
Accessor Registry (spec section 2 and 4.3); `connector.py` is missing from
the excerpt. -/
inductive AccessorName
  | changes
  | buildsets
  | builds
  | sourcestamps
  | workers
  | masters
deriving DecidableEq

/-- Modelled from the spec: the registry's static shape (spec section 4.3);
`connector.py` is missing from the excerpt. -/
def allAccessors : List AccessorName :=
  [.changes, .buildsets, .builds, .sourcestamps, .workers, .masters]

/-- Modelled from the spec: ConnectorConfig (spec section 3) - cleanup
interval plus per-accessor optional retention horizons (RetentionPolicy;
`none` means "do not prune this accessor"); `connector.py` is missing from
the excerpt. -/
structure ConnectorConfig where
  interval : Nat
  policy : AccessorName → Option Nat

/-- Modelled from the spec: the error taxonomy of spec section 7;
`connector.py` and `exceptions.py` are missing from the excerpt. -/
inductive DBError
  | databaseNotReady
  | notInitialized
  | serviceStopped
  | storageUnavailable
deriving DecidableEq

/-- Modelled from the spec: the backing store as seen by the Schema Version
Gate (spec section 4.2) - either a fresh embedded instance with no
persisted schema, or a store with a recorded schema version;
`connector.py` is missing from the excerpt. -/
inductive Store
  | fresh
  | versioned (v : Nat)

/-- Modelled from the spec: the Schema Version Gate's current-check (spec
section 4.2): a fresh embedded store is always reported current; otherwise
a stored version older than the expected one yields `current = false`;
`model.is_current` is missing from the excerpt. -/
def is_current (expected : Nat) : Store → Bool
  | .fresh => true
  | .versioned v => decide (expected ≤ v)

/-- Modelled from the spec: the Cleanup Scheduler's state machine states
(spec section 4.4); `connector.py` is missing from the excerpt. -/
inductive SchedState
  | unarmed
  | armed
  | firing
  | cancelled
deriving DecidableEq

/-- Modelled from the spec: the connector state built by a successful
`setup` - the live config, the constructed Accessor Registry, the Cleanup
Scheduler state and the prune calls of an in-flight cleanup cycle;
`connector.py` is missing from the excerpt. -/
structure Connector where
  config : ConnectorConfig
  registry : List AccessorName
  sched : SchedState
  inflight : List (AccessorName × Nat)

/-- Modelled from the spec: `setup(checkVersion)` (spec sections 4.2 and
4.5): when `checkVersion` is true and the gate reports not current, fail
with `DatabaseNotReady` and construct nothing; otherwise build the
Accessor Registry with the scheduler unarmed; `connector.py` is missing
from the excerpt. -/
def setup (checkVersion : Bool) (expected : Nat) (store : Store)
    (cfg : ConnectorConfig) : Except DBError Connector :=
  if checkVersion && !(is_current expected store) then
    .error .databaseNotReady
  else
    .ok { config := cfg, registry := allAccessors, sched := .unarmed, inflight := [] }

/-- Modelled from the spec: named accessor lookup (spec section 6) - an
accessor call can only succeed against the registry of a connector that
`setup` actually constructed; `connector.py` is missing from the
excerpt. -/
def accessorCall (r : Except DBError Connector) (a : AccessorName) :
    Except DBError AccessorName :=
  match r with
  | .error e => .error e
  | .ok c => if a ∈ c.registry then .ok a else .error .notInitialized

/-- Modelled from the spec: `start()` (spec section 4.5.2) - arms the
Cleanup Scheduler; calling it without a successful `setup` fails with
`NotInitialized` (spec section 4.5); `connector.py` is missing from the
excerpt. -/
def startService : Except DBError Connector → Except DBError Connector
  | .error _ => .error .notInitialized
  | .ok c => .ok { c with sched := .armed }

/-- Modelled from the spec: the observable "timer running" flag of the
Cleanup Scheduler (`cleanup_timer.running` in the tests, spec section 8);
`connector.py` is missing from the excerpt. -/
def timer_running (c : Connector) : Bool :=
  c.sched = SchedState.armed || c.sched = SchedState.firing

/-- Modelled from the spec: `reconfigure(config)` (spec sections 4.4 and
4.5.3) - atomically swaps the live config; before `start()` it only
updates the pending config, while `Armed` it re-arms with the new
interval (the scheduler state itself is unchanged in every case);
`connector.py` is missing from the excerpt. -/
def reconfigure (newCfg : ConnectorConfig) (c : Connector) : Connector :=
  { c with config := newCfg }

/-- Modelled from the spec: one `Firing` cleanup cycle (`_doCleanup` in the
tests, spec section 4.4) - sequentially invoke the prune operation of each
accessor whose RetentionPolicy is set on the current config, with the
configured horizon; an accessor with no policy is skipped entirely. The
result lists the prune invocations performed; `connector.py` is missing
from the excerpt. -/
def doCleanup (cfg : ConnectorConfig) : List (AccessorName × Nat) :=
  allAccessors.filterMap (fun a => (cfg.policy a).map (fun h => (a, h)))

/-- Modelled from the spec: how many prune invocations a cleanup cycle
performs on a given accessor; `connector.py` is missing from the
excerpt. -/
def pruneCount (cfg : ConnectorConfig) (a : AccessorName) : Nat :=
  (doCleanup cfg).countP (fun call => call.1 == a)

/-- Modelled from the spec: the timer elapsing (spec section 4.4,
`Armed → Firing`): the cycle's prune calls become in-flight work;
`connector.py` is missing from the excerpt. -/
def fireCleanup (c : Connector) : Connector :=
  match c.sched with
  | .armed => { c with sched := .firing, inflight := doCleanup c.config }
  | _ => c

/-- Modelled from the spec: `stop()` (spec sections 4.4 and 4.5.4) -
cancels a pending timer, waits for an in-flight `Firing` cycle to finish
(the returned list is the work completed before `stop` returns), and
leaves the scheduler `Cancelled` with no surviving cleanup work;
`connector.py` is missing from the excerpt. -/
def stopService (c : Connector) : List (AccessorName × Nat) × Connector :=
  (c.inflight,
   { config := c.config, registry := c.registry, sched := .cancelled, inflight := [] })

/-- A configuration with no retention policy for any accessor. -/
def cfgNone : ConnectorConfig :=
  { interval := 3600, policy := fun _ => none }

/-- A configuration with a retention policy only for the changes
accessor. -/
def cfgChanges : ConnectorConfig :=
  { interval := 3600, policy := fun a => if a = .changes then some 30 else none }

/-- A connector as produced by `setup` followed by `startService`. -/
def connArmed : Connector :=
  { config := cfgNone, registry := allAccessors, sched := .armed, inflight := [] }

end DBConn

namespace Feeds

/-- The build-result constants imported by feeds.py from
`buildbot.status.builder` (SUCCESS, WARNINGS, FAILURE, EXCEPTION, ...). -/
inductive Results
  | success
  | warnings
  | failure
  | skipped
  | exception
  | retry
deriving DecidableEq

/-- A build log as used by `FeedResource.body`: `log.getStep().getName()`
and `log.getText()`, where `text = none` models `getText` raising
`IOError`. -/
structure Log where
  stepName : String
  text : Option String

/-- `build.getSourceStamp()` as read by `FeedResource.body`. `branch` and
`revision` may be `some ""`, which Python treats as falsy but not `None`;
`patch` only matters for presence; `hasChanges` is the truthiness of
`ss.changes`. -/
structure SourceStamp where
  branch : Option String
  revision : Option String
  patch : Option Unit
  hasChanges : Bool

/-- A finished build as read by `FeedResource.getBuilds` and `body`:
`getNumber`, `getResults`, `getTimes` (a `(start, end)` pair, compared
lexicographically as in Python), `getSourceStamp`, the `got_revision`
property (`none` models `KeyError`), `getBuilder().getName()`,
`getResponsibleUsers`, `getLogs`, and `status.getURLForThing(build)`. -/
structure Build where
  number : Nat
  results : Results
  times : Int × Int
  sourceStamp : SourceStamp
  gotRevision : Option String
  builderName : String
  responsibleUsers : List String
  logs : List Log
  url : String

/-- A builder as read by `FeedResource.getBuilds`: `name`, `category`,
`getLastFinishedBuild()` and `getBuild(i)`. -/
structure Builder where
  name : String
  category : String
  lastFinishedBuild : Option Build
  getBuild : Nat → Option Build

/-- The request data feeds.py reads: the `show`, `builder` and `category`
URL arguments and the HTTP method. -/
structure Request where
  showArgs : List String
  builderArgs : List String
  categoryArgs : List String
  method : String

/-- `maxFeeds = 25` in `FeedResource.getBuilds`. -/
def maxFeeds : Nat := 25

/-- The per-builder `while i >= 0` loop of `FeedResource.getBuilds`
(feeds.py lines 129-145): walk build numbers downwards from `i`, skip
missing builds, append builds whose results equal FAILURE, and break once
`totalbuilds` reaches `maxFeeds`. -/
def collectFailed (b : Builder) : Nat → Nat → List Build
  | 0, _total =>
    match b.getBuild 0 with
    | none => []
    | some build => if build.results = Results.failure then [build] else []
  | i + 1, total =>
    match b.getBuild (i + 1) with
    | none => collectFailed b i total
    | some build =>
      if build.results = Results.failure then
        if maxFeeds ≤ total + 1 then [build]
        else build :: collectFailed b i (total + 1)
      else
        if maxFeeds ≤ total then []
        else collectFailed b i total

/-- Python's lexicographic comparison of the `(start, end)` tuples returned
by `build.getTimes()`. -/
def timesLe (t u : Int × Int) : Prop :=
  t.1 < u.1 ∨ (t.1 = u.1 ∧ t.2 ≤ u.2)

instance (t u : Int × Int) : Decidable (timesLe t u) := by
  unfold timesLe
  infer_instance

/-- The ordering used by `builds.sort(key=lambda build: build.getTimes(),
reverse=True)`: `a` may precede `b` when `b`'s times do not exceed `a`'s
(a stable descending sort keeps ties in list order, which the non-strict
relation reproduces). -/
def buildAfter (a b : Build) : Prop :=
  timesLe b.times a.times

instance (a b : Build) : Decidable (buildAfter a b) := by
  unfold buildAfter
  infer_instance

instance : IsTotal Build buildAfter :=
  ⟨by
    intro a b
    unfold buildAfter timesLe
    omega⟩

instance : IsTrans Build buildAfter :=
  ⟨by
    intro a b c hab hbc
    unfold buildAfter timesLe at hab hbc ⊢
    omega⟩

/-- The builder filtering of `FeedResource.getBuilds` (feeds.py lines
97-114): start from the status object's builder list (already limited by
the configured categories), restrict to the `show`/`builder` URL arguments
when present, then to the `category` URL arguments when present. -/
def filteredBuilders (allBuilders : List Builder) (req : Request) : List Builder :=
  let builders := allBuilders
  let showBuilders := req.showArgs ++ req.builderArgs
  let builders :=
    if showBuilders.isEmpty then builders
    else builders.filter (fun b => showBuilders.contains b.name)
  if req.categoryArgs.isEmpty then builders
  else builders.filter (fun b => req.categoryArgs.contains b.category)

/-- The per-builder part of the `for b in builders` loop of
`FeedResource.getBuilds`: skip builders with no finished build, otherwise
run the inner while loop from the last finished build's number with
`totalbuilds = 0`. -/
def builderFailedBuilds (b : Builder) : List Build :=
  match b.lastFinishedBuild with
  | none => []
  | some lastbuild => collectFailed b lastbuild.number 0

/-- `FeedResource.getBuilds` (feeds.py lines 89-161): gather the failed
builds of every filtered builder, sort the list by `getTimes()` youngest
first, and truncate to `maxFeeds` entries. -/
def getBuilds (allBuilders : List Builder) (req : Request) : List Build :=
  let builders := filteredBuilders allBuilders req
  let builds := (builders.map builderFailedBuilds).flatten
  let builds := List.insertionSort buildAfter builds
  if builds.isEmpty then builds else builds.take (min builds.length maxFeeds)

/-- Python truthiness of an optional string (`None` and `''` are falsy). -/
def optTruthy : Option String → Bool
  | none => false
  | some s => !(s == "")

/-- The `source` string built by `FeedResource.body` from the source stamp
(feeds.py lines 174-185), including the `is None`-based "Latest revision"
case. -/
def sourceText (ss : SourceStamp) : String :=
  let source := ""
  let source :=
    if optTruthy ss.branch then source ++ "Branch " ++ ss.branch.getD "" ++ " "
    else source
  let source :=
    if optTruthy ss.revision then source ++ "Revision " ++ ss.revision.getD "" ++ " "
    else source
  let source := if ss.patch.isSome then source ++ " (plus patch)" else source
  if ss.branch.isNone && ss.revision.isNone && ss.patch.isNone && !ss.hasChanges then
    source ++ "Latest revision "
  else source

/-- The `got_revision` suffix of the `source` string (feeds.py lines
186-195): absent on `KeyError` or a falsy property, truncated when longer
than 40 characters. -/
def gotRevisionText (build : Build) : String :=
  match build.gotRevision with
  | none => ""
  | some g =>
    if g == "" then ""
    else
      let g := if 40 < g.length then "[revision string too long]" else g
      "(Got Revision: " ++ g ++ ")"

/-- The item title of `FeedResource.body` (feeds.py lines 196-197):
`'%s failed on "%s"' % (source, buildername)`. -/
def buildTitle (build : Build) : String :=
  sourceText build.sourceStamp ++ gotRevisionText build
    ++ " failed on \"" ++ build.builderName ++ "\""

/-- The lastlog post-processing of `FeedResource.body` (feeds.py lines
209-213): split on newlines, keep the last 30 lines, join them with
`<br/>`, then replace any remaining newline by `<br/>`. -/
def processLastlog (lastlog : String) : String :=
  let lines := lastlog.splitOn "\n"
  let kept := lines.drop (lines.length - 30)
  let joined := kept.foldl (fun acc logline => acc ++ logline ++ "<br/>") ""
  joined.replace "\n" "<br/>"

/-- The per-build data `FeedResource.body` hands to `item(...)` and to the
description template (the computable parts of `cxt`). -/
structure Item where
  title : String
  link : String
  buildNumber : Nat
  builderName : String
  responsibleUsers : List String
  lastStep : String
  lastlog : String

/-- One iteration of the `for build in builds` loop of `FeedResource.body`
(feeds.py lines 167-232). The pair of options threads the Python local
variables `laststep` and `lastlog` across iterations (`none` = not yet
assigned); when `build.getLogs()` is empty the previous values are kept,
and reading an unassigned local raises an unbound-variable error. -/
def bodyStep (st : Option String × Option String) (build : Build) :
    Except String ((Option String × Option String) × Item) :=
  let (laststep, lastlog) :=
    match build.logs.getLast? with
    | none => st
    | some log =>
      (some log.stepName,
       some (match log.text with
             | some t => t
             | none => "<b>log file not available</b>"))
  match lastlog with
  | none => Except.error "local variable lastlog referenced before assignment"
  | some ll =>
    let ll := processLastlog ll
    match laststep with
    | none => Except.error "local variable laststep referenced before assignment"
    | some ls =>
      Except.ok ((laststep, some ll),
        { title := buildTitle build
          link := build.url.replace "index.html" ""
          buildNumber := build.number
          builderName := build.builderName
          responsibleUsers := build.responsibleUsers
          lastStep := ls
          lastlog := ll })

/-- The full `for build in builds` loop of `FeedResource.body`, threading
the `laststep`/`lastlog` locals and collecting the rendered items; an
unbound-variable error aborts the whole render. -/
def bodyItems : List Build → (Option String × Option String) →
    Except String (List Item)
  | [], _ => Except.ok []
  | build :: rest, st =>
    match bodyStep st build with
    | .error e => .error e
    | .ok (st', item) =>
      match bodyItems rest st' with
      | .error e => .error e
      | .ok items => .ok (item :: items)

/-- `FeedResource.body` (feeds.py lines 163-234): render every build
returned by `getBuilds`, starting with both locals unassigned. -/
def body (allBuilders : List Builder) (req : Request) : Except String (List Item) :=
  bodyItems (getBuilds allBuilders req) (none, none)

/-- An `XmlResource` (or subclass) as `render` sees it: the class
attributes `contentType` and `docType` plus the `header`, `body` and
`footer` methods a subclass may override. -/
structure XmlResource where
  contentType : String
  docType : String
  header : Request → String
  body : Request → String
  footer : Request → String

/-- What `XmlResource.render` does to the request and its return value:
the `content-type` header, the `content-length` header (only set for HEAD
requests), and the returned string. -/
structure RenderResult where
  contentTypeHeader : String
  contentLength : Option Nat
  returned : String

/-- `XmlResource.content` (feeds.py lines 54-59): docType, then header,
body and footer, the result being UTF-8 encoded (byte lengths are taken
with `String.utf8ByteSize` below). -/
def content (res : XmlResource) (req : Request) : String :=
  res.docType ++ res.header req ++ res.body req ++ res.footer req

/-- `XmlResource.render` (feeds.py lines 40-46): build the document, set
`content-type`; for a HEAD request also set `content-length` to the
encoded document's length and return the empty string, otherwise return
the document. -/
def render (res : XmlResource) (req : Request) : RenderResult :=
  let data := content res req
  if req.method == "HEAD" then
    { contentTypeHeader := res.contentType
      contentLength := some data.utf8ByteSize
      returned := "" }
  else
    { contentTypeHeader := res.contentType
      contentLength := none
      returned := data }

/-- A source stamp with nothing set. -/
def sampleStamp : SourceStamp :=
  { branch := none, revision := none, patch := none, hasChanges := false }

/-- A failed build carrying one log. -/
def buildWithLog : Build :=
  { number := 1
    results := .failure
    times := (10, 20)
    sourceStamp := sampleStamp
    gotRevision := none
    builderName := "runtests"
    responsibleUsers := []
    logs := [{ stepName := "compile", text := some "gcc: error" }]
    url := "http://host/builders/runtests/builds/1/index.html" }

/-- A failed build with an empty list of logs. -/
def buildNoLog : Build :=
  { number := 0
    results := .failure
    times := (0, 5)
    sourceStamp := sampleStamp
    gotRevision := none
    builderName := "runtests"
    responsibleUsers := []
    logs := []
    url := "http://host/builders/runtests/builds/0/" }

/-- A builder whose last finished build (number 1) has a log while its
older build (number 0) has none; both failed. -/
def sampleBuilder : Builder :=
  { name := "runtests"
    category := "tests"
    lastFinishedBuild := some buildWithLog
    getBuild := fun i =>
      if i = 1 then some buildWithLog
      else if i = 0 then some buildNoLog
      else none }

/-- A builder whose only build failed and has no logs. -/
def noLogBuilder : Builder :=
  { name := "nologs"
    category := "tests"
    lastFinishedBuild := some buildNoLog
    getBuild := fun i => if i = 0 then some buildNoLog else none }

/-- A request with no URL filter arguments. -/
def sampleReq : Request :=
  { showArgs := [], builderArgs := [], categoryArgs := [], method := "GET" }

/-- A HEAD request with no URL filter arguments. -/
def headReq : Request :=
  { showArgs := [], builderArgs := [], categoryArgs := [], method := "HEAD" }

/-- A resource with the base-class attributes of `XmlResource` (empty
docType, the XML declaration header, empty body and footer). -/
def sampleResource : XmlResource :=
  { contentType := "text/xml; charset=UTF-8"
    docType := ""
    header := fun _ => "<?xml version=\"1.0\" encoding=\"utf-8\"?>\n"
    body := fun _ => ""
    footer := fun _ => "" }

end Feeds

/-! ## Helper lemmas -/

/-- Counting the prune calls a cleanup cycle makes on accessor `a` reduces
to counting the accessors equal to `a` whose policy is set. -/
theorem countP_filterMap_policy (p : DBConn.AccessorName → Option Nat)
    (a : DBConn.AccessorName) :
    ∀ L : List DBConn.AccessorName,
      (L.filterMap (fun x => (p x).map (fun h => (x, h)))).countP
          (fun call => call.1 == a)
        = L.countP (fun x => x == a && (p x).isSome)
  | [] => rfl
  | x :: L => by
    rcases hx : p x with _ | v <;>
      simp [List.filterMap_cons, hx, countP_filterMap_policy p a L, List.countP_cons]

/-! ## Claims about the Database Connector Service (modelled from the
spec; `buildbot/db/connector.py` is not part of the excerpt) -/

/-- C1: for every `setup` call with `checkVersion = true` against a store
whose recorded schema version is older than the expected version, `setup`
fails with the `DatabaseNotReady` error, the Accessor Registry is not
constructed (no accessor call succeeds afterward) and the Cleanup
Scheduler is not started. -/
theorem C1_setup_stale_version_fails (expected v : Nat)
    (cfg : DBConn.ConnectorConfig) (h : v < expected) :
    DBConn.setup true expected (.versioned v) cfg = .error .databaseNotReady
    ∧ (∀ a, DBConn.accessorCall (DBConn.setup true expected (.versioned v) cfg) a
        = .error .databaseNotReady)
    ∧ DBConn.startService (DBConn.setup true expected (.versioned v) cfg)
        = .error .notInitialized := by
  have hc : DBConn.is_current expected (.versioned v) = false := by
    simp [DBConn.is_current]
    omega
  refine ⟨?_, ?_, ?_⟩
  · simp [DBConn.setup, hc]
  · intro a
    simp [DBConn.accessorCall, DBConn.setup, hc]
  · simp [DBConn.startService, DBConn.setup, hc]

/-- Witness for C1 at `expected = 2`, stored version `1`. -/
theorem C1_witness :
    (1 : Nat) < 2
    ∧ DBConn.setup true 2 (.versioned 1) DBConn.cfgNone
        = .error .databaseNotReady :=
  ⟨by decide, (C1_setup_stale_version_fails 2 1 DBConn.cfgNone (by decide)).1⟩

/-- C2: a cleanup cycle run with a retention policy configured for the
changes accessor performs exactly one prune invocation on that accessor,
and zero prune invocations on every accessor with no configured policy. -/
theorem C2_doCleanup_configured (cfg : DBConn.ConnectorConfig) (h : Nat)
    (hch : cfg.policy .changes = some h) :
    DBConn.pruneCount cfg .changes = 1
    ∧ ∀ a, cfg.policy a = none → DBConn.pruneCount cfg a = 0 := by
  constructor
  · rw [DBConn.pruneCount, DBConn.doCleanup, countP_filterMap_policy,
      DBConn.allAccessors]
    simp [List.countP_cons, hch]
  · intro a ha
    rw [DBConn.pruneCount, DBConn.doCleanup, countP_filterMap_policy]
    rw [List.countP_eq_zero]
    intro x _
    by_cases hxa : x = a
    · subst hxa
      simp [ha]
    · simp [hxa]

/-- Witness for C2 at the configuration whose only policy is
`changes ↦ 30`. -/
theorem C2_witness :
    DBConn.pruneCount DBConn.cfgChanges .changes = 1
    ∧ DBConn.pruneCount DBConn.cfgChanges .workers = 0 :=
  ⟨(C2_doCleanup_configured DBConn.cfgChanges 30 rfl).1,
   (C2_doCleanup_configured DBConn.cfgChanges 30 rfl).2 .workers rfl⟩

/-- C3: a cleanup cycle run with no retention policy configured for any
accessor performs zero prune invocations: every accessor with no policy is
skipped entirely. -/
theorem C3_doCleanup_unconfigured (cfg : DBConn.ConnectorConfig)
    (h : ∀ a, cfg.policy a = none) :
    DBConn.doCleanup cfg = []
    ∧ ∀ a, DBConn.pruneCount cfg a = 0 := by
  have hd : DBConn.doCleanup cfg = [] := by
    simp [DBConn.doCleanup, DBConn.allAccessors, List.filterMap_cons, h]
  exact ⟨hd, fun a => by simp [DBConn.pruneCount, hd]⟩

/-- Witness for C3 at the configuration with no policies. -/
theorem C3_witness :
    DBConn.doCleanup DBConn.cfgNone = []
    ∧ DBConn.pruneCount DBConn.cfgNone .changes = 0 :=
  ⟨(C3_doCleanup_unconfigured DBConn.cfgNone (fun _ => rfl)).1,
   (C3_doCleanup_unconfigured DBConn.cfgNone (fun _ => rfl)).2 .changes⟩

/-- C4: after `start()` (followed by applying the configuration) the
Cleanup Scheduler's observable "timer running" flag is true if and only
if `start()` completed successfully - it is false on the connector `setup`
returns, true on the connector a successful `start` returns (also after a
`reconfigure`), and a failed `setup` leaves `start` failing with no
connector at all. -/
theorem C4_timer_running_iff_started (checkVersion : Bool) (expected : Nat)
    (store : DBConn.Store) (cfg newCfg : DBConn.ConnectorConfig) :
    (∀ c, DBConn.setup checkVersion expected store cfg = .ok c →
        DBConn.timer_running c = false)
    ∧ (∀ c, DBConn.startService (DBConn.setup checkVersion expected store cfg)
          = .ok c →
        DBConn.timer_running (DBConn.reconfigure newCfg c) = true)
    ∧ (∀ e, DBConn.setup checkVersion expected store cfg = .error e →
        DBConn.startService (DBConn.setup checkVersion expected store cfg)
          = .error .notInitialized) := by
  refine ⟨?_, ?_, ?_⟩ <;> rw [DBConn.setup] <;> split
  · intro c hc
    exact absurd hc (by simp)
  · intro c hc
    cases hc
    rfl
  · intro c hc
    exact absurd hc (by simp [DBConn.startService])
  · intro c hc
    rw [DBConn.startService] at hc
    cases hc
    rfl
  · intro e _
    rfl
  · intro e he
    exact absurd he (by simp)

/-- Witness for C4: the armed connector produced by a successful `setup`
and `start` has its timer running. -/
theorem C4_witness :
    DBConn.timer_running (DBConn.reconfigure DBConn.cfgNone DBConn.connArmed)
      = true :=
  (C4_timer_running_iff_started false 2 .fresh DBConn.cfgNone DBConn.cfgNone).2.1
    DBConn.connArmed rfl

/-- C5: every `setup` call with `checkVersion = false` succeeds regardless
of the schema version recorded in the store, constructing the full
Accessor Registry (every accessor call succeeds). -/
theorem C5_setup_no_check_succeeds (expected : Nat) (store : DBConn.Store)
    (cfg : DBConn.ConnectorConfig) :
    DBConn.setup false expected store cfg
      = .ok { config := cfg, registry := DBConn.allAccessors,
              sched := .unarmed, inflight := [] }
    ∧ ∀ a, DBConn.accessorCall (DBConn.setup false expected store cfg) a
        = .ok a := by
  refine ⟨rfl, ?_⟩
  intro a
  cases a <;> rfl

/-- C6: every `setup` call with `checkVersion = true` against a fresh,
never-before-used embedded store succeeds - the version gate reports a
fresh store current. -/
theorem C6_setup_fresh_store_succeeds (expected : Nat)
    (cfg : DBConn.ConnectorConfig) :
    DBConn.is_current expected .fresh = true
    ∧ DBConn.setup true expected .fresh cfg
        = .ok { config := cfg, registry := DBConn.allAccessors,
                sched := .unarmed, inflight := [] } :=
  ⟨rfl, rfl⟩

/-- C7: `stop()` returns only after the in-flight cleanup cycle has
finished (the work of a firing cycle is exactly what `stop` completes
before returning), and afterwards the Cleanup Scheduler's "timer running"
flag is false with no surviving cleanup work. -/
theorem C7_stop_cancels_and_drains (c : DBConn.Connector) :
    DBConn.timer_running (DBConn.stopService c).2 = false
    ∧ (DBConn.stopService c).2.sched = .cancelled
    ∧ (DBConn.stopService c).1 = c.inflight
    ∧ (DBConn.stopService c).2.inflight = []
    ∧ (c.sched = .armed →
        (DBConn.stopService (DBConn.fireCleanup c)).1 = DBConn.doCleanup c.config) := by
  refine ⟨rfl, rfl, rfl, rfl, ?_⟩
  intro h
  simp [DBConn.fireCleanup, h, DBConn.stopService]

/-- Witness for C7 at the armed connector: stopping after the timer fires
completes exactly the configured cleanup cycle and leaves the timer
stopped. -/
theorem C7_witness :
    (DBConn.stopService (DBConn.fireCleanup DBConn.connArmed)).1
        = DBConn.doCleanup DBConn.connArmed.config
    ∧ DBConn.timer_running (DBConn.stopService DBConn.connArmed).2 = false :=
  ⟨(C7_stop_cancels_and_drains DBConn.connArmed).2.2.2.2 rfl,
   (C7_stop_cancels_and_drains DBConn.connArmed).1⟩

/-- Every build the inner while loop of `getBuilds` collects failed and was
returned by the builder's `getBuild`. -/
theorem collectFailed_mem (b : Feeds.Builder) :
    ∀ (i total : Nat) (x : Feeds.Build), x ∈ Feeds.collectFailed b i total →
      x.results = Feeds.Results.failure ∧ ∃ j, b.getBuild j = some x := by
  intro i
  induction i with
  | zero =>
    intro total x hx
    unfold Feeds.collectFailed at hx
    split at hx
    · exact absurd hx (List.not_mem_nil x)
    · rename_i build hb
      split at hx
      · rename_i hr
        rcases List.mem_singleton.mp hx with rfl
        exact ⟨hr, 0, hb⟩
      · exact absurd hx (List.not_mem_nil x)
  | succ n ih =>
    intro total x hx
    unfold Feeds.collectFailed at hx
    split at hx
    · exact ih total x hx
    · rename_i build hb
      split at hx
      · rename_i hr
        split at hx
        · rcases List.mem_singleton.mp hx with rfl
          exact ⟨hr, n + 1, hb⟩
        · rcases List.mem_cons.mp hx with rfl | hx'
          · exact ⟨hr, n + 1, hb⟩
          · exact ih (total + 1) x hx'
      · split at hx
        · exact absurd hx (List.not_mem_nil x)
        · exact ih total x hx

/-- Every build gathered for one builder failed and was returned by that
builder's `getBuild`. -/
theorem builderFailedBuilds_mem (b : Feeds.Builder) (x : Feeds.Build)
    (hx : x ∈ Feeds.builderFailedBuilds b) :
    x.results = Feeds.Results.failure ∧ ∃ j, b.getBuild j = some x := by
  unfold Feeds.builderFailedBuilds at hx
  split at hx
  · exact absurd hx (List.not_mem_nil x)
  · exact collectFailed_mem b _ 0 x hx

/-- Every build `getBuilds` returns was gathered from one of the filtered
builders. -/
theorem getBuilds_subset (allBuilders : List Feeds.Builder) (req : Feeds.Request)
    (x : Feeds.Build) (hx : x ∈ Feeds.getBuilds allBuilders req) :
    ∃ b ∈ Feeds.filteredBuilders allBuilders req,
      x ∈ Feeds.builderFailedBuilds b := by
  simp only [Feeds.getBuilds] at hx
  have hx' : x ∈ List.insertionSort Feeds.buildAfter
      ((Feeds.filteredBuilders allBuilders req).map Feeds.builderFailedBuilds).flatten := by
    split at hx
    · exact hx
    · exact (List.take_sublist _ _).mem hx
  have hflat := (List.perm_insertionSort Feeds.buildAfter _).mem_iff.mp hx'
  obtain ⟨l, hl, hxl⟩ := List.mem_flatten.mp hflat
  obtain ⟨b, hb, rfl⟩ := List.mem_map.mp hl
  exact ⟨b, hb, hxl⟩

/-- `getBuilds` never returns more than `maxFeeds` builds. -/
theorem getBuilds_length (allBuilders : List Feeds.Builder) (req : Feeds.Request) :
    (Feeds.getBuilds allBuilders req).length ≤ 25 := by
  simp only [Feeds.getBuilds, Feeds.maxFeeds]
  split
  · rename_i he
    rw [List.isEmpty_iff] at he
    rw [he]
    simp
  · rw [List.length_take]
    omega

/-- The list `getBuilds` returns is sorted youngest first. -/
theorem getBuilds_pairwise (allBuilders : List Feeds.Builder) (req : Feeds.Request) :
    List.Pairwise Feeds.buildAfter (Feeds.getBuilds allBuilders req) := by
  simp only [Feeds.getBuilds]
  split
  · exact List.sorted_insertionSort Feeds.buildAfter _
  · exact List.Pairwise.sublist (List.take_sublist _ _)
      (List.sorted_insertionSort Feeds.buildAfter _)

/-- C8: `FeedResource.getBuilds` returns only builds whose result is
FAILURE, drawn (via `getBuild`) from builders passing the configured
category filter and the request's builder/category filters, capped at 25
builds in total and sorted by build times, youngest first. -/
theorem C8_getBuilds_spec (allBuilders : List Feeds.Builder) (req : Feeds.Request) :
    (∀ build ∈ Feeds.getBuilds allBuilders req,
        build.results = Feeds.Results.failure)
    ∧ (Feeds.getBuilds allBuilders req).length ≤ 25
    ∧ List.Pairwise Feeds.buildAfter (Feeds.getBuilds allBuilders req)
    ∧ (∀ build ∈ Feeds.getBuilds allBuilders req,
        ∃ b ∈ Feeds.filteredBuilders allBuilders req,
          ∃ j, b.getBuild j = some build) := by
  refine ⟨?_, getBuilds_length allBuilders req, getBuilds_pairwise allBuilders req, ?_⟩
  · intro build hb
    obtain ⟨b, _, hx⟩ := getBuilds_subset allBuilders req build hb
    exact (builderFailedBuilds_mem b build hx).1
  · intro build hb
    obtain ⟨b, hbmem, hx⟩ := getBuilds_subset allBuilders req build hb
    exact ⟨b, hbmem, (builderFailedBuilds_mem b build hx).2⟩

/-- Witness for C8 on a concrete builder with two failed builds. -/
theorem C8_witness :
    Feeds.buildWithLog.results = Feeds.Results.failure
    ∧ (Feeds.getBuilds [Feeds.sampleBuilder] Feeds.sampleReq).length ≤ 25 := by
  constructor
  · exact (C8_getBuilds_spec [Feeds.sampleBuilder] Feeds.sampleReq).1
      Feeds.buildWithLog
      (by
        have h : Feeds.getBuilds [Feeds.sampleBuilder] Feeds.sampleReq
            = [Feeds.buildWithLog, Feeds.buildNoLog] := rfl
        rw [h]
        exact List.mem_cons_self _ _)
  · exact (C8_getBuilds_spec [Feeds.sampleBuilder] Feeds.sampleReq).2.1

/-- A build with at least one log assigns both `laststep` and `lastlog`,
whatever their previous state. -/
theorem bodyStep_log (st : Option String × Option String) (build : Feeds.Build)
    (lgl : Feeds.Log) (h : build.logs.getLast? = some lgl) :
    ∃ ls' ll' item,
      Feeds.bodyStep st build = Except.ok ((some ls', some ll'), item) := by
  simp only [Feeds.bodyStep, h]
  exact ⟨_, _, _, rfl⟩

/-- A build with no logs reuses already-assigned `laststep`/`lastlog`
values and renders without error. -/
theorem bodyStep_nolog (ls ll : String) (build : Feeds.Build)
    (h : build.logs.getLast? = none) :
    ∃ item,
      Feeds.bodyStep (some ls, some ll) build
        = Except.ok ((some ls, some (Feeds.processLastlog ll)), item) := by
  simp only [Feeds.bodyStep, h]
  exact ⟨_, rfl⟩

/-- Once `laststep`/`lastlog` are assigned, the rest of the body loop
never raises. -/
theorem bodyItems_assigned (builds : List Feeds.Build) :
    ∀ ls ll : String,
      ∃ items, Feeds.bodyItems builds (some ls, some ll) = Except.ok items := by
  induction builds with
  | nil => exact fun ls ll => ⟨[], rfl⟩
  | cons build rest ih =>
    intro ls ll
    rcases hlast : build.logs.getLast? with _ | lgl
    · obtain ⟨item, hstep⟩ := bodyStep_nolog ls ll build hlast
      obtain ⟨items, hrest⟩ := ih ls (Feeds.processLastlog ll)
      exact ⟨item :: items, by simp [Feeds.bodyItems, hstep, hrest]⟩
    · obtain ⟨ls', ll', item, hstep⟩ := bodyStep_log (some ls, some ll) build lgl hlast
      obtain ⟨items, hrest⟩ := ih ls' ll'
      exact ⟨item :: items, by simp [Feeds.bodyItems, hstep, hrest]⟩

/-- C9 (amended): when the first build `getBuilds` returns has an empty
list of logs, `FeedResource.body` reads the local `lastlog` before any
assignment and raises an unbound-variable error; `body` completes exactly
when the build list is empty or its first build has at least one log -
later builds with empty logs silently reuse the previous build's
`laststep`/`lastlog` values instead of raising. -/
theorem C9_body_unbound_lastlog (allBuilders : List Feeds.Builder)
    (req : Feeds.Request) :
    (∀ build rest, Feeds.getBuilds allBuilders req = build :: rest →
        build.logs = [] →
        Feeds.body allBuilders req
          = Except.error "local variable lastlog referenced before assignment")
    ∧ ((Feeds.body allBuilders req).isOk = true ↔
        (Feeds.getBuilds allBuilders req = []
         ∨ ∃ build rest, Feeds.getBuilds allBuilders req = build :: rest
             ∧ build.logs ≠ [])) := by
  constructor
  · intro build rest hg hlogs
    unfold Feeds.body
    rw [hg]
    have hlast : build.logs.getLast? = none := by rw [hlogs]; rfl
    simp [Feeds.bodyItems, Feeds.bodyStep, hlast]
  · rcases hg : Feeds.getBuilds allBuilders req with _ | ⟨build, rest⟩
    · have hok : Feeds.body allBuilders req = Except.ok [] := by
        unfold Feeds.body
        rw [hg]
        rfl
      rw [hok]
      simp [Except.isOk, Except.toBool]
    · rcases hl : build.logs with _ | ⟨lg, lgs⟩
      · have hlast : build.logs.getLast? = none := by rw [hl]; rfl
        have herr : Feeds.body allBuilders req
            = Except.error "local variable lastlog referenced before assignment" := by
          unfold Feeds.body
          rw [hg]
          simp [Feeds.bodyItems, Feeds.bodyStep, hlast]
        rw [herr]
        simp [Except.isOk, Except.toBool, hl]
      · have hne : build.logs ≠ [] := by rw [hl]; exact List.cons_ne_nil lg lgs
        obtain ⟨lgl, hlgl⟩ :=
          Option.isSome_iff_exists.mp (List.getLast?_isSome.mpr hne)
        obtain ⟨ls', ll', item, hstep⟩ :=
          bodyStep_log (none, none) build lgl hlgl
        obtain ⟨items, hrest⟩ := bodyItems_assigned rest ls' ll'
        have hok : Feeds.body allBuilders req = Except.ok (item :: items) := by
          unfold Feeds.body
          rw [hg]
          simp [Feeds.bodyItems, hstep, hrest]
        rw [hok]
        constructor
        · intro _
          exact Or.inr ⟨build, rest, rfl, hne⟩
        · intro _
          rfl

/-- Counterexample to C9 as stated: this input renders successfully even
though a rendered build (the second one) has an empty list of logs - the
loop reuses the previous build's `laststep`/`lastlog` locals. -/
theorem C9_counterexample :
    (Feeds.body [Feeds.sampleBuilder] Feeds.sampleReq).isOk = true
    ∧ Feeds.buildNoLog ∈ Feeds.getBuilds [Feeds.sampleBuilder] Feeds.sampleReq
    ∧ Feeds.buildNoLog.logs = [] := by
  refine ⟨rfl, ?_, rfl⟩
  have h : Feeds.getBuilds [Feeds.sampleBuilder] Feeds.sampleReq
      = [Feeds.buildWithLog, Feeds.buildNoLog] := rfl
  rw [h]
  exact List.mem_cons_of_mem _ (List.mem_cons_self _ _)

/-- Witness for C9: on a builder whose only (failed) build has no logs,
`body` raises the unbound-variable error. -/
theorem C9_witness :
    Feeds.body [Feeds.noLogBuilder] Feeds.sampleReq
      = Except.error "local variable lastlog referenced before assignment" :=
  (C9_body_unbound_lastlog [Feeds.noLogBuilder] Feeds.sampleReq).1
    Feeds.buildNoLog [] rfl rfl

/-- C10: `XmlResource.render` builds the document as docType, header, body
then footer, always sets the content-type header; for a HEAD request it
sets content-length to the encoded document's byte length and returns the
empty string, otherwise it returns the document. -/
theorem C10_render_spec (res : Feeds.XmlResource) (req : Feeds.Request) :
    Feeds.content res req
      = res.docType ++ res.header req ++ res.body req ++ res.footer req
    ∧ (Feeds.render res req).contentTypeHeader = res.contentType
    ∧ (req.method = "HEAD" →
        (Feeds.render res req).contentLength
            = some (Feeds.content res req).utf8ByteSize
        ∧ (Feeds.render res req).returned = "")
    ∧ (req.method ≠ "HEAD" →
        (Feeds.render res req).contentLength = none
        ∧ (Feeds.render res req).returned = Feeds.content res req) := by
  refine ⟨rfl, ?_, ?_, ?_⟩
  · simp only [Feeds.render]
    split <;> rfl
  · intro h
    constructor <;> simp [Feeds.render, h]
  · intro h
    constructor <;> simp [Feeds.render, beq_iff_eq, h]

/-- Witness for C10 at a HEAD request against the base resource. -/
theorem C10_witness :
    (Feeds.render Feeds.sampleResource Feeds.headReq).contentLength
        = some (Feeds.content Feeds.sampleResource Feeds.headReq).utf8ByteSize
    ∧ (Feeds.render Feeds.sampleResource Feeds.headReq).returned = "" :=
  (C10_render_spec Feeds.sampleResource Feeds.headReq).2.2.1 rfl
